import Mathlib

/-!
Verification of the Tourism AI Agent repository (`Travel_agent`).

The repository ships the FastAPI gateway (`main.py`) and a scenario test file
(`test_tourism_agent.py`).  The core agent modules (`models.py`,
`langchain_agent.py` / `tourism_agent.py`) are referenced but not present in
the source tree, so the core pipeline is modelled from the specification
(each such definition carries a doc comment starting `Modelled from the
spec:`).  The gateway definitions below are a direct shallow embedding of
`main.py`.

Python floats carry no arithmetic in this program (temperatures are only
stored and copied), so they are modelled as `Int`.
-/

namespace Travel

/-- Modelled from the spec: section 3 data model.  `TourismResponse` is the
structured record produced by the core agent (its Python class lives in the
missing `models.py`; the field list is fixed by spec section 3 and by the
field accesses in `main.py` lines 96-106). -/
structure TourismResponse where
  message : String
  success : Bool
  error : Option String
  place : Option String
  has_weather : Bool
  has_places : Bool
  temperature : Option Int
  precipitation_chance : Option Int
  attractions : Option (List String)
deriving DecidableEq, Repr

/-- `ChatResponse` from `main.py` lines 46-57: the gateway response model.
Fields not passed at construction default to `None`. -/
structure ChatResponse where
  response : String
  success : Bool
  error : Option String := none
  place : Option String := none
  has_weather : Option Bool := none
  has_places : Option Bool := none
  temperature : Option Int := none
  precipitation_chance : Option Int := none
  attractions : Option (List String) := none
deriving DecidableEq, Repr

/-- Python exceptions reachable in the `chat` handler: the
`HTTPException(status_code=400, detail=...)` raised at `main.py` line 90, and
any other exception escaping the core agent. -/
inductive Fault where
  | httpEx : Nat → String → Fault
  | other : String → Fault
deriving DecidableEq, Repr

/-- Python `str(e)`: Starlette `HTTPException.__str__` renders
`"{status_code}: {detail}"`; for other exceptions we carry the message. -/
def Fault.str : Fault → String
  | .httpEx code detail => toString code ++ ": " ++ detail
  | .other m => m

/-- Python `str.strip()` on a character list: drop whitespace from both
ends. -/
def stripChars (l : List Char) : List Char :=
  ((l.dropWhile Char.isWhitespace).reverse.dropWhile Char.isWhitespace).reverse

/-- Python `str.strip()`. -/
def pyStrip (s : String) : String := (stripChars s.toList).asString

/-- The guard at `main.py` line 89: `not request.message or
request.message.strip() == ""` (for a `str`, `not s` is `s == ""`). -/
def isBlank (m : String) : Bool := m == "" || pyStrip m == ""

/-- Outcome of one HTTP request to `POST /chat`: either a 200 response with a
`ChatResponse` body, or an `HTTPException` escaping the handler (which FastAPI
would turn into an error status response). -/
inductive HttpOutcome where
  | ok : ChatResponse → HttpOutcome
  | clientError : Nat → String → HttpOutcome
deriving DecidableEq, Repr

/-- The `try` block of the `chat` handler, `main.py` lines 88-106.  The core
agent (`create_langchain_tourism_agent().run`) is a parameter `core`; a raised
exception is an `Except.error`. -/
def chatTry (core : String → Except Fault TourismResponse)
    (message : String) : Except Fault ChatResponse :=
  if isBlank message then
    Except.error (Fault.httpEx 400 "Message cannot be empty")
  else
    match core message with
    | Except.error e => Except.error e
    | Except.ok result =>
      Except.ok
        { response := result.message
          success := result.success
          error := result.error
          place := result.place
          has_weather := some result.has_weather
          has_places := some result.has_places
          temperature := result.temperature
          precipitation_chance := result.precipitation_chance
          attractions := result.attractions }

/-- The `except Exception` fallback response, `main.py` lines 108-113. -/
def apologyResponse (e : Fault) : ChatResponse :=
  { response := "I apologize, but I encountered an error processing your request."
    success := false
    error := some e.str }

/-- The full `chat` handler, `main.py` lines 77-113: the `try` block wrapped
in `except Exception as e`, which catches every exception — including the
`HTTPException` raised for blank input, since `HTTPException` subclasses
`Exception`.  Hence the handler never lets a fault escape. -/
def chat (core : String → Except Fault TourismResponse)
    (message : String) : HttpOutcome :=
  match chatTry core message with
  | Except.ok r => HttpOutcome.ok r
  | Except.error e => HttpOutcome.ok (apologyResponse e)

/-! Core pipeline, modelled from spec sections 4.1-4.4 (the implementing
modules are not in the source tree). -/

/-- Boolean test that the character list `p` is an initial segment of `l`. -/
def matchesAt (p l : List Char) : Bool :=
  match p, l with
  | [], _ => true
  | _ :: _, [] => false
  | a :: ps, b :: ls => a == b && matchesAt ps ls

/-- Boolean test that `p` occurs as a contiguous segment of `l`. -/
def hasSubList (p l : List Char) : Bool :=
  matchesAt p l ||
    (match l with
     | [] => false
     | _ :: t => hasSubList p t)

/-- Substring occurrence test on strings. -/
def strHasSub (s pat : String) : Bool := hasSubList pat.toList s.toList

/-- Lowercasing, character by character. -/
def lowerString (s : String) : String := (s.toList.map Char.toLower).asString

/-- Splits a character list on spaces (accumulator holds the current word
reversed). -/
def splitWordsAux (cur : List Char) : List Char → List (List Char)
  | [] => [cur.reverse]
  | c :: t =>
    if c = ' ' then cur.reverse :: splitWordsAux [] t
    else splitWordsAux (c :: cur) t

/-- Splits a string into its space-separated words. -/
def splitWords (s : String) : List String :=
  (splitWordsAux [] s.toList).map List.asString

/-- Modelled from the spec: section 4.1 capability decision, "a set drawn
from \x7bweather, places\x7d". -/
structure CapSet where
  weather : Bool
  places : Bool
deriving DecidableEq, Repr

/-- Modelled from the spec: section 4.1 intent classifier (the implementation
is in the missing agent module).  Keyword matching on the lowercased query:
"temperature"/"weather" cue the weather capability; "visit"/"places"/
"attractions" cue the places capability.  Empty or unrecognized text yields
the empty capability set; the trip-planning fallback is applied later by the
assembler (spec section 4.4). -/
def classify (q : String) : CapSet :=
  let s := lowerString q
  { weather := strHasSub s "temperature" || strHasSub s "weather"
    places := strHasSub s "visit" || strHasSub s "places" || strHasSub s "attractions" }

/-- Stopword forms of the pronoun "I" left after punctuation stripping. -/
def stopwords : List String := ["I", "Im", "Id", "Ill", "Ive"]

/-- A word token stripped to its alphabetic characters. -/
def cleanWord (w : String) : String := (w.toList.filter Char.isAlpha).asString

/-- Test for a candidate place word: non-empty, capitalized, not a stopword. -/
def isPlaceWord (w : String) : Bool :=
  w ≠ "" && !(stopwords.contains w) &&
    (match w.toList with
     | [] => false
     | c :: _ => c.isUpper)

/-- Modelled from the spec: section 4.2 location extractor (implementation in
the missing agent module).  Simple capitalized-word heuristic — the spec fixes
only that it is deterministic and finds "Bangalore" in the scenario queries:
split on spaces, strip punctuation, return the first capitalized non-stopword
token, if any. -/
def extractLocation (q : String) : Option String :=
  ((splitWords q).map cleanWord).find? (fun w => isPlaceWord w)

/-- Modelled from the spec: section 3 `WeatherResult`
`\x7btemperature: float, precipitation_chance: integer percentage\x7d`
(floats modelled as `Int`; no arithmetic is performed on them). -/
structure WeatherResult where
  temperature : Int
  precipitation_chance : Int
deriving DecidableEq, Repr

/-- Modelled from the spec: section 4.4 trip-planning fallback — if the
classifier produced an empty capability set and a place was extracted, the
resolved capability set is places-only; otherwise the classifier output
stands. -/
def resolveCaps (q : String) (place : Option String) : CapSet :=
  let c := classify q
  if c = ⟨false, false⟩ then
    match place with
    | some _ => ⟨false, true⟩
    | none => c
  else c

/-- Generic greeting response of spec section 4.4, for a query that asked for
nothing specific and named no place. -/
def greetingResponse : TourismResponse :=
  { message := "Hello! Tell me a destination and I can help with weather and places to visit."
    success := true
    error := none
    place := none
    has_weather := false
    has_places := false
    temperature := none
    precipitation_chance := none
    attractions := none }

/-- Spec section 4.4: response when no place could be extracted. -/
def noLocationResponse : TourismResponse :=
  { message := "Please tell me which destination you have in mind."
    success := false
    error := some "could not determine location"
    place := none
    has_weather := false
    has_places := false
    temperature := none
    precipitation_chance := none
    attractions := none }

/-- Apology message used when every requested lookup failed. -/
def apologyMessage (p : String) : String :=
  "Sorry, I could not retrieve information about " ++ p ++ " right now."

/-- Natural-language summary for the success path (spec section 4.4);
its exact wording is not load-bearing for any claim. -/
def summaryMessage (p : String) (w : Option WeatherResult)
    (a : Option (List String)) : String :=
  "Here is what I found about " ++ p ++ "." ++
    (match w with
     | some wr => " Temperature: " ++ toString wr.temperature ++ "."
     | none => "") ++
    (match a with
     | some l => " Attractions: " ++ toString (l.take 5) ++ "."
     | none => "")

/-- The first captured error among the performed lookups, weather first
(lookups run sequentially, weather then places, spec section 5). -/
def firstFailure (wr : Option (Except String WeatherResult))
    (pr : Option (Except String (List String))) : Option String :=
  match wr, pr with
  | some (Except.error e), _ => some e
  | _, some (Except.error e) => some e
  | _, _ => none

/-- Modelled from the spec: section 4.4 response assembler for a resolved
place `p` with the performed lookup results (`none` = capability not
requested, `Except.error` = `ProviderError`).  Partial failures are
downgraded: the response fails only when every performed lookup failed. -/
def assemble (p : String) (wr : Option (Except String WeatherResult))
    (pr : Option (Except String (List String))) : TourismResponse :=
  let wOk : Option WeatherResult :=
    match wr with
    | some (Except.ok w) => some w
    | _ => none
  let aOk : Option (List String) :=
    match pr with
    | some (Except.ok l) => some l
    | _ => none
  if wOk.isNone && aOk.isNone then
    { message := apologyMessage p
      success := false
      error := firstFailure wr pr
      place := some p
      has_weather := false
      has_places := false
      temperature := none
      precipitation_chance := none
      attractions := none }
  else
    { message := summaryMessage p wOk aOk
      success := true
      error := none
      place := some p
      has_weather := wOk.isSome
      has_places :=
        (match aOk with
         | some l => !l.isEmpty
         | none => false)
      temperature := wOk.map WeatherResult.temperature
      precipitation_chance := wOk.map WeatherResult.precipitation_chance
      attractions := aOk }

/-- Modelled from the spec: sections 4.1-4.4 and 5 — the whole core pipeline:
classify, extract the location, resolve the trip-planning fallback, perform
the requested lookups sequentially against the providers `wx` and `pl`, and
assemble one `TourismResponse`. -/
def runPipeline (wx : String → Except String WeatherResult)
    (pl : String → Except String (List String)) (q : String) : TourismResponse :=
  let place := extractLocation q
  let caps := resolveCaps q place
  if caps = ⟨false, false⟩ then greetingResponse
  else
    match place with
    | none => noLocationResponse
    | some p =>
      assemble p (if caps.weather then some (wx p) else none)
        (if caps.places then some (pl p) else none)

/-- The core agent as used by the gateway: a pure function, never raising. -/
def pipelineCore (wx : String → Except String WeatherResult)
    (pl : String → Except String (List String)) :
    String → Except Fault TourismResponse :=
  fun q => Except.ok (runPipeline wx pl q)

/-- Running the pipeline for two successive requests of the same query: no
state survives a request (`main.py` line 93 creates a fresh agent per
request, and the core holds no module-level mutable state), so this is just
two independent evaluations. -/
def runPipelineTwice (wx : String → Except String WeatherResult)
    (pl : String → Except String (List String)) (q : String) :
    TourismResponse × TourismResponse :=
  (runPipeline wx pl q, runPipeline wx pl q)

/-! Theorems about the gateway (`main.py`). -/

/-- C9: the `POST /chat` handler never lets any exception escape: for every
incoming request, including one with an empty or whitespace-only message, it
returns a `ChatResponse` value (HTTP 200), because the `HTTPException` raised
for empty input is itself caught by the handler's own surrounding
except-block. -/
theorem chat_never_raises :
    (∀ core m, ∃ body, chat core m = HttpOutcome.ok body) ∧
    (∀ core, chat core "" =
      HttpOutcome.ok (apologyResponse (Fault.httpEx 400 "Message cannot be empty"))) := by
  constructor
  · intro core m
    unfold chat
    cases chatTry core m with
    | ok r => exact ⟨r, rfl⟩
    | error e => exact ⟨apologyResponse e, rfl⟩
  · intro core
    rfl

/-- C1 (evaluation at the failing input): on an empty message the handler
does bypass the core entirely (the result does not depend on `core`), but it
does not reject with an HTTP 400 client error: the `HTTPException` raised at
`main.py` line 90 is caught by the handler's own `except Exception` at line
108, so the caller receives a 200 response whose body has `success = false`
and `error = "400: Message cannot be empty"`. -/
theorem chat_empty_message_not_rejected_with_400 :
    (∀ core, chat core "" =
      HttpOutcome.ok (apologyResponse (Fault.httpEx 400 "Message cannot be empty"))) ∧
    (∀ core code detail, chat core "" ≠ HttpOutcome.clientError code detail) := by
  constructor
  · intro core
    rfl
  · intro core code detail h
    exact HttpOutcome.noConfusion h

/-- C2: every exception raised during core processing is caught by the
handler's catch-all, which returns a `ChatResponse` with `success = false`,
`error` the string form of the fault, and the fixed generic apology message;
no fault is propagated to the HTTP caller. -/
theorem chat_core_fault_caught (core : String → Except Fault TourismResponse)
    (m : String) (f : Fault) (hb : isBlank m = false)
    (hf : core m = Except.error f) :
    chat core m = HttpOutcome.ok
      { response := "I apologize, but I encountered an error processing your request."
        success := false
        error := some (Fault.str f) } := by
  unfold chat chatTry
  simp [hb, hf, apologyResponse]

/-- Witness for C2 at the concrete request "hi" with a faulting core. -/
theorem chat_core_fault_caught_witness :
    isBlank "hi" = false ∧
    chat (fun _ => Except.error (Fault.other "boom")) "hi" = HttpOutcome.ok
      { response := "I apologize, but I encountered an error processing your request."
        success := false
        error := some (Fault.str (Fault.other "boom")) } :=
  ⟨by decide,
   chat_core_fault_caught (fun _ => Except.error (Fault.other "boom")) "hi"
     (Fault.other "boom") (by decide) rfl⟩

/-- C8: on the success path, every field of the gateway's `ChatResponse`
equals the corresponding field of the core's `TourismResponse`: `response`
equals `message`, and the remaining fields are copied verbatim (`main.py`
lines 96-106; the boolean `has_weather`/`has_places` land in optional-bool
fields of `ChatResponse`). -/
theorem chat_success_copies_fields (core : String → Except Fault TourismResponse)
    (m : String) (r : TourismResponse) (hb : isBlank m = false)
    (hr : core m = Except.ok r) :
    chat core m = HttpOutcome.ok
      { response := r.message
        success := r.success
        error := r.error
        place := r.place
        has_weather := some r.has_weather
        has_places := some r.has_places
        temperature := r.temperature
        precipitation_chance := r.precipitation_chance
        attractions := r.attractions } := by
  unfold chat chatTry
  simp [hb, hr]

/-- Witness for C8 at a concrete request and core result. -/
theorem chat_success_copies_fields_witness :
    isBlank "hi" = false ∧
    chat (fun _ => Except.ok
        { message := "ok", success := true, error := none, place := some "Goa"
          has_weather := true, has_places := false, temperature := some 30
          precipitation_chance := some 10, attractions := none }) "hi" =
      HttpOutcome.ok
        { response := "ok", success := true, error := none, place := some "Goa"
          has_weather := some true, has_places := some false, temperature := some 30
          precipitation_chance := some 10, attractions := none } :=
  ⟨by decide,
   chat_success_copies_fields _ "hi"
     { message := "ok", success := true, error := none, place := some "Goa"
       has_weather := true, has_places := false, temperature := some 30
       precipitation_chance := some 10, attractions := none }
     (by decide) rfl⟩

/-- C10: on every error path of `POST /chat` (any caught exception), the
structured data fields of the response — `place`, `has_weather`,
`has_places`, `temperature`, `precipitation_chance`, `attractions` — are all
`None`; only `response`, `success` and `error` carry data. -/
theorem chat_error_path_leaves_data_none
    (core : String → Except Fault TourismResponse) (m : String) (f : Fault)
    (h : chatTry core m = Except.error f) :
    ∃ c, chat core m = HttpOutcome.ok c ∧
      c.response = "I apologize, but I encountered an error processing your request." ∧
      c.success = false ∧ c.error = some (Fault.str f) ∧
      c.place = none ∧ c.has_weather = none ∧ c.has_places = none ∧
      c.temperature = none ∧ c.precipitation_chance = none ∧
      c.attractions = none := by
  refine ⟨apologyResponse f, ?_, rfl, rfl, rfl, rfl, rfl, rfl, rfl, rfl, rfl⟩
  unfold chat
  rw [h]

/-- Witness for C10 at the concrete empty request. -/
theorem chat_error_path_leaves_data_none_witness :
    ∃ c, chat (fun q => Except.ok (runPipeline (fun _ => Except.error "w")
        (fun _ => Except.error "p") q)) "" = HttpOutcome.ok c ∧
      c.response = "I apologize, but I encountered an error processing your request." ∧
      c.success = false ∧
      c.error = some (Fault.str (Fault.httpEx 400 "Message cannot be empty")) ∧
      c.place = none ∧ c.has_weather = none ∧ c.has_places = none ∧
      c.temperature = none ∧ c.precipitation_chance = none ∧
      c.attractions = none :=
  chat_error_path_leaves_data_none _ ""
    (Fault.httpEx 400 "Message cannot be empty") rfl

/-! Theorems about the core pipeline (modelled from the spec). -/

/-- With a place in hand the trip-planning fallback guarantees a non-empty
resolved capability set. -/
theorem resolveCaps_some_ne_empty (q p : String) :
    resolveCaps q (some p) ≠ ⟨false, false⟩ := by
  simp only [resolveCaps]
  by_cases h : classify q = ⟨false, false⟩
  · rw [if_pos h]
    decide
  · rw [if_neg h]
    exact h

/-- A non-empty capability set wants weather or places. -/
theorem capset_ne_empty (c : CapSet) (h : c ≠ ⟨false, false⟩) :
    c.weather = true ∨ c.places = true := by
  rcases c with ⟨w, pl⟩
  cases w <;> cases pl <;> simp_all

/-- The assembler preserves `success ↔ error = none`, provided at least one
lookup was performed. -/
theorem assemble_success_iff_error_none (p : String)
    (wr : Option (Except String WeatherResult))
    (pr : Option (Except String (List String)))
    (h : wr ≠ none ∨ pr ≠ none) :
    (assemble p wr pr).success = true ↔ (assemble p wr pr).error = none := by
  rcases wr with _ | wv
  · rcases pr with _ | lv
    · simp at h
    · cases lv <;> simp [assemble, firstFailure]
  · cases wv with
    | error we =>
      rcases pr with _ | lv
      · simp [assemble, firstFailure]
      · cases lv <;> simp [assemble, firstFailure]
    | ok wv =>
      rcases pr with _ | lv
      · simp [assemble, firstFailure]
      · cases lv <;> simp [assemble, firstFailure]

/-- Every pipeline response satisfies `success ↔ error = none`. -/
theorem runPipeline_success_iff_error_none
    (wx : String → Except String WeatherResult)
    (pl : String → Except String (List String)) (q : String) :
    (runPipeline wx pl q).success = true ↔ (runPipeline wx pl q).error = none := by
  unfold runPipeline
  cases hp : extractLocation q with
  | none =>
    simp only [hp]
    split
    · simp [greetingResponse]
    · simp [noLocationResponse]
  | some p =>
    simp only [hp]
    rw [if_neg (resolveCaps_some_ne_empty q p)]
    apply assemble_success_iff_error_none
    rcases capset_ne_empty _ (resolveCaps_some_ne_empty q p) with h | h
    · left
      simp [h]
    · right
      simp [h]

/-- C3: for every response produced by the pipeline — the success path and
every error path of `POST /chat` — `success` is true iff the `error` field is
`none`. -/
theorem chat_pipeline_success_iff_error_none
    (wx : String → Except String WeatherResult)
    (pl : String → Except String (List String)) (m : String)
    (body : ChatResponse)
    (h : chat (pipelineCore wx pl) m = HttpOutcome.ok body) :
    body.success = true ↔ body.error = none := by
  unfold chat chatTry pipelineCore at h
  by_cases hb : isBlank m = true
  · rw [if_pos hb] at h
    cases h
    simp [apologyResponse]
  · rw [if_neg hb] at h
    cases h
    simpa using runPipeline_success_iff_error_none wx pl m

/-- Witness for C3 at the concrete empty request. -/
theorem chat_pipeline_success_iff_error_none_witness :
    chat (pipelineCore (fun _ => Except.error "w") (fun _ => Except.error "p")) "" =
      HttpOutcome.ok (apologyResponse (Fault.httpEx 400 "Message cannot be empty")) ∧
    ((apologyResponse (Fault.httpEx 400 "Message cannot be empty")).success = true ↔
      (apologyResponse (Fault.httpEx 400 "Message cannot be empty")).error = none) :=
  ⟨rfl, chat_pipeline_success_iff_error_none
    (fun _ => Except.error "w") (fun _ => Except.error "p") "" _ rfl⟩

/-- Flag invariants of the assembler: `has_weather` tracks a present
temperature, `has_places` a present non-empty attractions list. -/
theorem assemble_flags (p : String)
    (wr : Option (Except String WeatherResult))
    (pr : Option (Except String (List String))) :
    ((assemble p wr pr).has_weather = true ↔ (assemble p wr pr).temperature ≠ none) ∧
    ((assemble p wr pr).has_places = true ↔
      ∃ l, (assemble p wr pr).attractions = some l ∧ l ≠ []) := by
  rcases wr with _ | wv
  · rcases pr with _ | lv
    · simp [assemble]
    · cases lv with
      | error e => simp [assemble]
      | ok l => cases l <;> simp [assemble]
  · cases wv with
    | error we =>
      rcases pr with _ | lv
      · simp [assemble]
      · cases lv with
        | error e => simp [assemble]
        | ok l => cases l <;> simp [assemble]
    | ok wv =>
      rcases pr with _ | lv
      · simp [assemble]
      · cases lv with
        | error e => simp [assemble]
        | ok l => cases l <;> simp [assemble]

/-- C4: every `TourismResponse` produced by the pipeline has
`has_weather = true` iff `temperature` is non-null, and `has_places = true`
iff `attractions` is non-null and non-empty. -/
theorem pipeline_flag_invariants
    (wx : String → Except String WeatherResult)
    (pl : String → Except String (List String)) (q : String) :
    ((runPipeline wx pl q).has_weather = true ↔
      (runPipeline wx pl q).temperature ≠ none) ∧
    ((runPipeline wx pl q).has_places = true ↔
      ∃ l, (runPipeline wx pl q).attractions = some l ∧ l ≠ []) := by
  unfold runPipeline
  cases hp : extractLocation q with
  | none =>
    simp only [hp]
    split
    · simp [greetingResponse]
    · simp [noLocationResponse]
  | some p =>
    simp only [hp]
    rw [if_neg (resolveCaps_some_ne_empty q p)]
    exact assemble_flags p _ _

/-- C7: running the pipeline twice with the same query and unchanged provider
data yields structurally identical `TourismResponse` values — the pipeline is
a pure function of the query and the providers, and no state survives a
request (a fresh agent is created per request at `main.py` line 93). -/
theorem pipeline_idempotent
    (wx : String → Except String WeatherResult)
    (pl : String → Except String (List String)) (q : String) :
    (runPipelineTwice wx pl q).1 = (runPipelineTwice wx pl q).2 := rfl

/-- C5: with a resolved place, if at least one requested lookup succeeds the
assembler omits only the failed lookup's data — the succeeded lookup's data
is retained in full — and still returns `success = true`; only when every
requested lookup fails does it return `success = false`, with `error` the
first captured error message (weather first, matching lookup order), an
apology as the message, and the place still populated. -/
theorem assembler_partial_failure_policy
    (wx : String → Except String WeatherResult)
    (pl : String → Except String (List String))
    (q p : String) (hp : extractLocation q = some p) :
    (((resolveCaps q (some p)).weather = true ∧ (∃ w, wx p = Except.ok w)) ∨
     ((resolveCaps q (some p)).places = true ∧ (∃ l, pl p = Except.ok l)) →
      (runPipeline wx pl q).success = true ∧
      (∀ e, (resolveCaps q (some p)).weather = true → wx p = Except.error e →
        (runPipeline wx pl q).has_weather = false ∧
        (runPipeline wx pl q).temperature = none ∧
        (runPipeline wx pl q).precipitation_chance = none) ∧
      (∀ e, (resolveCaps q (some p)).places = true → pl p = Except.error e →
        (runPipeline wx pl q).has_places = false ∧
        (runPipeline wx pl q).attractions = none) ∧
      (∀ w, (resolveCaps q (some p)).weather = true → wx p = Except.ok w →
        (runPipeline wx pl q).has_weather = true ∧
        (runPipeline wx pl q).temperature = some w.temperature ∧
        (runPipeline wx pl q).precipitation_chance = some w.precipitation_chance) ∧
      (∀ l, (resolveCaps q (some p)).places = true → pl p = Except.ok l →
        (runPipeline wx pl q).attractions = some l ∧
        ((runPipeline wx pl q).has_places = true ↔ l ≠ []))) ∧
    (((resolveCaps q (some p)).weather = true → ∃ e, wx p = Except.error e) ∧
     ((resolveCaps q (some p)).places = true → ∃ e, pl p = Except.error e) →
      (runPipeline wx pl q).success = false ∧
      (runPipeline wx pl q).error =
        firstFailure (if (resolveCaps q (some p)).weather then some (wx p) else none)
          (if (resolveCaps q (some p)).places then some (pl p) else none) ∧
      (runPipeline wx pl q).error ≠ none ∧
      (runPipeline wx pl q).message = apologyMessage p ∧
      (runPipeline wx pl q).place = some p) := by
  have hrun : runPipeline wx pl q = assemble p
      (if (resolveCaps q (some p)).weather then some (wx p) else none)
      (if (resolveCaps q (some p)).places then some (pl p) else none) := by
    unfold runPipeline
    simp only [hp]
    rw [if_neg (resolveCaps_some_ne_empty q p)]
  rw [hrun]
  cases hw : (resolveCaps q (some p)).weather with
  | false =>
    cases hcp : (resolveCaps q (some p)).places with
    | false =>
      rcases capset_ne_empty _ (resolveCaps_some_ne_empty q p) with h | h
      · rw [hw] at h
        simp at h
      · rw [hcp] at h
        simp at h
    | true =>
      cases hpl : pl p with
      | error e => simp [assemble, firstFailure]
      | ok l => simp [assemble, firstFailure]
  | true =>
    cases hwx : wx p with
    | error we =>
      cases hcp : (resolveCaps q (some p)).places with
      | false => simp [assemble, firstFailure]
      | true =>
        cases hpl : pl p with
        | error e => simp [assemble, firstFailure]
        | ok l => simp [assemble, firstFailure]
    | ok w =>
      cases hcp : (resolveCaps q (some p)).places with
      | false => simp [assemble, firstFailure]
      | true =>
        cases hpl : pl p with
        | error e => simp [assemble, firstFailure]
        | ok l => simp [assemble, firstFailure]

/-- A query cueing only the weather capability, naming Paris. -/
def parisQuery : String := "weather in Paris please"

/-- A weather provider that always fails. -/
def wxDown : String → Except String WeatherResult :=
  fun _ => Except.error "weather provider down"

/-- A places provider that always fails. -/
def plDown : String → Except String (List String) :=
  fun _ => Except.error "places provider down"

/-- Witness for C5: for the query "weather in Paris please" with both
providers failing, the single requested lookup (weather) fails, so the
response is a failure carrying the first captured error. -/
theorem assembler_partial_failure_policy_witness :
    extractLocation parisQuery = some "Paris" ∧
    ((((resolveCaps parisQuery (some "Paris")).weather = true ∧
        (∃ w, wxDown "Paris" = Except.ok w)) ∨
      ((resolveCaps parisQuery (some "Paris")).places = true ∧
        (∃ l, plDown "Paris" = Except.ok l)) →
       (runPipeline wxDown plDown parisQuery).success = true ∧
       (∀ e, (resolveCaps parisQuery (some "Paris")).weather = true →
          wxDown "Paris" = Except.error e →
          (runPipeline wxDown plDown parisQuery).has_weather = false ∧
          (runPipeline wxDown plDown parisQuery).temperature = none ∧
          (runPipeline wxDown plDown parisQuery).precipitation_chance = none) ∧
       (∀ e, (resolveCaps parisQuery (some "Paris")).places = true →
          plDown "Paris" = Except.error e →
          (runPipeline wxDown plDown parisQuery).has_places = false ∧
          (runPipeline wxDown plDown parisQuery).attractions = none) ∧
       (∀ w, (resolveCaps parisQuery (some "Paris")).weather = true →
          wxDown "Paris" = Except.ok w →
          (runPipeline wxDown plDown parisQuery).has_weather = true ∧
          (runPipeline wxDown plDown parisQuery).temperature = some w.temperature ∧
          (runPipeline wxDown plDown parisQuery).precipitation_chance =
            some w.precipitation_chance) ∧
       (∀ l, (resolveCaps parisQuery (some "Paris")).places = true →
          plDown "Paris" = Except.ok l →
          (runPipeline wxDown plDown parisQuery).attractions = some l ∧
          ((runPipeline wxDown plDown parisQuery).has_places = true ↔ l ≠ []))) ∧
     (((resolveCaps parisQuery (some "Paris")).weather = true →
        ∃ e, wxDown "Paris" = Except.error e) ∧
      ((resolveCaps parisQuery (some "Paris")).places = true →
        ∃ e, plDown "Paris" = Except.error e) →
       (runPipeline wxDown plDown parisQuery).success = false ∧
       (runPipeline wxDown plDown parisQuery).error =
         firstFailure
           (if (resolveCaps parisQuery (some "Paris")).weather
             then some (wxDown "Paris") else none)
           (if (resolveCaps parisQuery (some "Paris")).places
             then some (plDown "Paris") else none) ∧
       (runPipeline wxDown plDown parisQuery).error ≠ none ∧
       (runPipeline wxDown plDown parisQuery).message = apologyMessage "Paris" ∧
       (runPipeline wxDown plDown parisQuery).place = some "Paris")) :=
  ⟨by decide,
   assembler_partial_failure_policy wxDown plDown parisQuery "Paris" (by decide)⟩

/-- The apostrophe character, kept out of string literals. -/
def apos : String := (Char.ofNat 39).toString

/-- The scenario A query:
`I'm going to go to Bangalore, let's plan my trip.` -/
def scenarioAQuery : String :=
  "I" ++ apos ++ "m going to go to Bangalore, let" ++ apos ++ "s plan my trip."

/-- C6: on the scenario A query (a trip-planning phrase with no weather cue)
the classifier finds no cue, the capability set resolves to places-only via
the trip-planning fallback, the extracted place is "Bangalore", and — when
the places provider returns a non-empty list for Bangalore — the response has
`has_places = true` and `has_weather = false`. -/
theorem scenarioA_trip_planning_fallback
    (wx : String → Except String WeatherResult)
    (pl : String → Except String (List String)) (l : List String)
    (hl : pl "Bangalore" = Except.ok l) (hne : l ≠ []) :
    classify scenarioAQuery = ⟨false, false⟩ ∧
    extractLocation scenarioAQuery = some "Bangalore" ∧
    resolveCaps scenarioAQuery (extractLocation scenarioAQuery) = ⟨false, true⟩ ∧
    (runPipeline wx pl scenarioAQuery).has_places = true ∧
    (runPipeline wx pl scenarioAQuery).has_weather = false := by
  refine ⟨by decide, by decide, by decide, ?_, ?_⟩ <;>
  · have hrun : runPipeline wx pl scenarioAQuery =
        assemble "Bangalore" none (some (pl "Bangalore")) := rfl
    rw [hrun, hl]
    simp [assemble, hne]

/-- Witness for C6 with a concrete places provider for Bangalore. -/
theorem scenarioA_trip_planning_fallback_witness :
    (fun _ : String =>
      (Except.ok ["Lalbagh Botanical Garden", "Bangalore Palace"] :
        Except String (List String))) "Bangalore" =
      Except.ok ["Lalbagh Botanical Garden", "Bangalore Palace"] ∧
    (["Lalbagh Botanical Garden", "Bangalore Palace"] : List String) ≠ [] ∧
    (classify scenarioAQuery = ⟨false, false⟩ ∧
     extractLocation scenarioAQuery = some "Bangalore" ∧
     resolveCaps scenarioAQuery (extractLocation scenarioAQuery) = ⟨false, true⟩ ∧
     (runPipeline (fun _ => Except.error "wx off")
        (fun _ => Except.ok ["Lalbagh Botanical Garden", "Bangalore Palace"])
        scenarioAQuery).has_places = true ∧
     (runPipeline (fun _ => Except.error "wx off")
        (fun _ => Except.ok ["Lalbagh Botanical Garden", "Bangalore Palace"])
        scenarioAQuery).has_weather = false) :=
  ⟨rfl, by decide,
   scenarioA_trip_planning_fallback (fun _ => Except.error "wx off")
     (fun _ => Except.ok ["Lalbagh Botanical Garden", "Bangalore Palace"])
     ["Lalbagh Botanical Garden", "Bangalore Palace"] rfl (by decide)⟩

end Travel
